import Mathlib

/-!
Verification development for the Voicenotes Wrapper (Linux desktop shell).

The development shallowly embeds the three relevant source units:

* the `AudioMonitor` class (audio-state poller: probe chain, level parsing,
  mute status, mute toggling, change-event emission);
* the main-process recording state machine, IPC handlers and shortcut
  configuration;
* the preload script's `findButtonByType` button heuristics.

Modelling conventions:

* Every `exec` subprocess invocation is modelled by a field of `ExecEnv`:
  `none` means the command failed (the `error` callback argument was set),
  `some out` means it succeeded with stdout `out`.  Commands whose command
  line depends on a runtime string (a source name or id) are modelled as
  functions from that string.
* Promises that can reject are modelled as `Except String`; `resolve v` is
  `Except.ok v` and `reject (new Error m)` is `Except.error m`.
* JavaScript numbers are modelled as exact rationals (`ℚ`); the literal
  `0.05` is `1/20` and `parseInt(d)/100` is `(d : ℚ)/100`.
* String scanning (`match`, `includes`, `split`, `trim`, `toLowerCase`) is
  implemented structurally over `List Char` so that every definition
  evaluates by kernel reduction.
-/

namespace VoiceNotes

/-- Checks whether `pfx` occurs at the very start of `l`. -/
def leadsList : List Char → List Char → Bool
  | [], _ => true
  | _ :: _, [] => false
  | a :: as, b :: bs => a == b && leadsList as bs

/-- JavaScript `hay.includes(needle)` over character lists. -/
def containsSubList (needle : List Char) : List Char → Bool
  | [] => needle.isEmpty
  | c :: cs => leadsList needle (c :: cs) || containsSubList needle cs

/-- JavaScript `hay.includes(needle)` on strings. -/
def containsSub (hay needle : String) : Bool :=
  containsSubList needle.data hay.data

/-- JavaScript `String.prototype.trim` (strip whitespace at both ends). -/
def trimStr (s : String) : String :=
  String.mk (((s.data.dropWhile Char.isWhitespace).reverse.dropWhile
    Char.isWhitespace).reverse)

/-- JavaScript `String.prototype.toLowerCase` (ASCII case folding). -/
def toLowerStr (s : String) : String :=
  String.mk (s.data.map Char.toLower)

/-- Fuel-driven worker for `splitOnStr`; the fuel starts at the length of
the scanned list, which each step strictly decreases, so fuel never runs
out on the initial call. -/
def splitOnListAux (sep : List Char) : Nat → List Char → List Char →
    List (List Char)
  | _, [], acc => [acc.reverse]
  | 0, l, acc => [acc.reverse ++ l]
  | fuel + 1, c :: cs, acc =>
    if leadsList sep (c :: cs) then
      acc.reverse :: splitOnListAux sep fuel (cs.drop (sep.length - 1)) []
    else
      splitOnListAux sep fuel cs (c :: acc)

/-- JavaScript `s.split(sep)` for a non-empty separator `sep`. -/
def splitOnStr (s sep : String) : List String :=
  (splitOnListAux sep.data s.data.length s.data []).map String.mk

/-- Maximal digit run at the front of a character list, together with the
rest of the list. -/
def takeDigits : List Char → List Char × List Char
  | [] => ([], [])
  | c :: cs =>
    if c.isDigit then
      let p := takeDigits cs
      (c :: p.1, p.2)
    else ([], c :: cs)

/-- Try to match the regular expression `(\d+)%` at the head of the list;
on success return the captured digit run. -/
def matchPercentAt (l : List Char) : Option (List Char) :=
  match takeDigits l with
  | (ds, rest) =>
    match rest with
    | '%' :: _ => if ds.isEmpty then none else some ds
    | _ => none

/-- First match of `(\d+)%` in the list, scanning left to right exactly as
the JavaScript regular-expression engine does. -/
def findPercent : List Char → Option (List Char)
  | [] => none
  | c :: cs =>
    match matchPercentAt (c :: cs) with
    | some ds => some ds
    | none => findPercent cs

/-- JavaScript `parseInt` on a (non-empty) digit string. -/
def digitsToNat (l : List Char) : Nat :=
  l.foldl (fun n c => 10 * n + (c.toNat - 48)) 0

/-- Index of the last occurrence of `c` in `l`, if any. -/
def lastIdxOf (c : Char) (l : List Char) : Option Nat :=
  (l.foldl
    (fun acc ch => (acc.1 + 1, if ch == c then some acc.1 else acc.2))
    ((0 : Nat), (none : Option Nat))).2

/-- First match, scanning left to right, of a regular expression of the
shape `pfx(.+)"` (literal prefix, greedy non-empty capture, closing double
quote): the capture runs to the last quote of the remainder. -/
def scanGreedyCapture (pfx : List Char) : List Char → Option (List Char)
  | [] => none
  | c :: cs =>
    match
      (if leadsList pfx (c :: cs) then
        match lastIdxOf '"' ((c :: cs).drop pfx.length) with
        | some i =>
          if 1 ≤ i then some (((c :: cs).drop pfx.length).take i) else none
        | none => none
      else none) with
    | some cap => some cap
    | none => scanGreedyCapture pfx cs

/-- Earliest position of the two-character sequence `space [` in a list. -/
def findSpaceBracket : List Char → Option Nat
  | ' ' :: '[' :: _ => some 0
  | _ :: rest => (findSpaceBracket rest).map (fun i => i + 1)
  | [] => none

/-- Try to match `card \d+: (.+?) \[` at the head of the list; the lazy
capture ends at the earliest later occurrence of `space [`. -/
def matchCardAt (l : List Char) : Option (List Char) :=
  if leadsList ("card ".data) l then
    match takeDigits (l.drop 5) with
    | (ds, rest) =>
      if ds.isEmpty then none
      else if leadsList (": ".data) rest then
        match findSpaceBracket ((rest.drop 2).drop 1) with
        | some j => some ((rest.drop 2).take (j + 1))
        | none => none
      else none
  else none

/-- First match of `card \d+: (.+?) \[` in the list, scanning left to
right. -/
def scanCard : List Char → Option (List Char)
  | [] => none
  | c :: cs =>
    match matchCardAt (c :: cs) with
    | some cap => some cap
    | none => scanCard cs

/-- The device state the poller maintains: display name and volume
fraction of the OS default input device. -/
structure AudioDeviceState where
  name : String
  level : ℚ
deriving DecidableEq

namespace AudioMonitor

/-- Outcome of every subprocess the `AudioMonitor` class can spawn.
`none` models a failed command, `some out` a successful one with stdout
`out`.  Fields whose command line embeds a runtime string take it as an
argument. -/
structure ExecEnv where
  getDefaultSource : Option String
  listShortSources : Option String
  listSourcesFull : Option String
  grepSourceById : String → Option String
  levelPipeByName : String → Option String
  levelPipeById : String → Option String
  arecord : Option String
  mutePipeByName : String → Option String
  setSourceMute : String → Option String

/-- Volume extraction shared by `getInputLevelByName` and `getInputLevel`:
`stdout.match(/(\d+)%/)`, then `parseInt(m[1])/100`, defaulting to `0`
when nothing matches. -/
def extractLevel (stdout : String) : ℚ :=
  match findPercent stdout.data with
  | some ds => (digitsToNat ds : ℚ) / 100
  | none => 0

/-- Method `AudioMonitor.getInputLevelByName`: the grep pipeline failing
resolves `0`; otherwise the first percentage in its output, over `100`. -/
def getInputLevelByName (env : ExecEnv) (sourceName : String) :
    Except String ℚ :=
  match env.levelPipeByName sourceName with
  | none => Except.ok 0
  | some stdout => Except.ok (extractLevel stdout)

/-- Method `AudioMonitor.getInputLevel` (legacy, by source id). -/
def getInputLevel (env : ExecEnv) (sourceId : String) : Except String ℚ :=
  match env.levelPipeById sourceId with
  | none => Except.ok 0
  | some stdout => Except.ok (extractLevel stdout)

/-- Per-line device-name extraction used by both detailed-info methods:
try `device\.description = "(.+)"` after an `includes` guard, then
`alsa\.card_name = "(.+)"`. -/
def lineDeviceName (line : String) : Option String :=
  match
    (if containsSub line "device.description" then
      scanGreedyCapture ("device.description = \"".data) line.data
    else none) with
  | some cap => some (String.mk cap)
  | none =>
    match
      (if containsSub line "alsa.card_name" then
        scanGreedyCapture ("alsa.card_name = \"".data) line.data
      else none) with
    | some cap => some (String.mk cap)
    | none => none

/-- Method `AudioMonitor.getDetailedSourceInfoByName`: split `pactl list sources`
output on `Source #`, take the first section naming the source, extract a
device description from its lines, then attach the current level. -/
def getDetailedSourceInfoByName (env : ExecEnv) (sourceName : String) :
    Except String AudioDeviceState :=
  match env.listSourcesFull with
  | none => Except.ok ⟨"Unknown Input Device", 0⟩
  | some stdout =>
    let deviceName :=
      match (splitOnStr stdout "Source #").find?
          (fun sec => containsSub sec ("Name: " ++ sourceName)) with
      | some sec =>
        ((splitOnStr sec "\n").findSome? lineDeviceName).getD
          "Unknown Input Device"
      | none => "Unknown Input Device"
    match getInputLevelByName env sourceName with
    | Except.ok level => Except.ok ⟨deviceName, level⟩
    | Except.error _ => Except.ok ⟨deviceName, 0⟩

/-- Method `AudioMonitor.getDetailedSourceInfo` (legacy, by source id): scan the
grepped listing lines for a device description, then attach the level. -/
def getDetailedSourceInfo (env : ExecEnv) (sourceId : String) :
    Except String AudioDeviceState :=
  match env.grepSourceById sourceId with
  | none => Except.ok ⟨"Unknown Input Device", 0⟩
  | some stdout =>
    let deviceName :=
      ((splitOnStr stdout "\n").findSome? lineDeviceName).getD
        "Unknown Input Device"
    match getInputLevel env sourceId with
    | Except.ok level => Except.ok ⟨deviceName, level⟩
    | Except.error _ => Except.ok ⟨deviceName, 0⟩

/-- Method `AudioMonitor.getAlsaInputInfo`: last fallback via `arecord -l`; a
failed command resolves the placeholder, otherwise the first line holding
`card` and `device` with a `card \d+: (.+?) \[` match names the device
(level always `0`). -/
def getAlsaInputInfo (env : ExecEnv) : Except String AudioDeviceState :=
  match env.arecord with
  | none => Except.ok ⟨"System Audio Input", 0⟩
  | some stdout =>
    let deviceName :=
      ((splitOnStr stdout "\n").findSome? (fun line =>
        if containsSub line "card" && containsSub line "device" then
          (scanCard line.data).map (fun cap => trimStr (String.mk cap))
        else none)).getD "System Audio Input"
    Except.ok ⟨deviceName, 0⟩

/-- Method `AudioMonitor.getFirstAvailableSource`: on `pactl list short sources`
failure fall through to ALSA; otherwise pick the first non-monitor input
line and fetch its detailed info by id. -/
def getFirstAvailableSource (env : ExecEnv) :
    Except String AudioDeviceState :=
  match env.listShortSources with
  | none => getAlsaInputInfo env
  | some stdout =>
    match ((splitOnStr stdout "\n").filter
        (fun line => !(trimStr line).isEmpty)).filter
        (fun line =>
          !containsSub line ".monitor" &&
            (containsSub line "alsa_input" || containsSub line "input")) with
    | [] => Except.ok ⟨"No Input Device", 0⟩
    | line :: _ =>
      getDetailedSourceInfo env ((splitOnStr line "\t").headD "")

/-- Method `AudioMonitor.getInputDeviceInfo` (also `getCurrentDevice`): query the
default source; on failure fall through to `getFirstAvailableSource`,
otherwise fetch detailed info for the trimmed default source name. -/
def getInputDeviceInfo (env : ExecEnv) : Except String AudioDeviceState :=
  match env.getDefaultSource with
  | none => getFirstAvailableSource env
  | some out => getDetailedSourceInfoByName env (trimStr out)

/-- Result shape of `AudioMonitor.getMuteStatus`. -/
structure MuteStatus where
  isMuted : Bool
  sourceName : String
deriving DecidableEq

/-- Method `AudioMonitor.getMuteStatus`: a failed default-source lookup rejects;
a failed mute grep resolves `isMuted:false`; otherwise `isMuted` holds
exactly when the output contains `Mute: yes`. -/
def getMuteStatus (env : ExecEnv) : Except String MuteStatus :=
  match env.getDefaultSource with
  | none => Except.error "Could not get default source"
  | some out =>
    match env.mutePipeByName (trimStr out) with
    | none => Except.ok ⟨false, trimStr out⟩
    | some stdout => Except.ok ⟨containsSub stdout "Mute: yes", trimStr out⟩

/-- Result shape `toggleMute` resolves with. -/
structure ToggleResult where
  success : Bool
  isMuted : Bool
  sourceName : String
deriving DecidableEq

/-- Method `AudioMonitor.toggleMute`: look up the default source (rejecting on
failure), toggle its mute flag (rejecting on failure), then re-query the
mute status — the nested `getMuteStatus` call sees the environment current
at that later time, hence the second `ExecEnv` argument. -/
def toggleMute (envA envB : ExecEnv) : Except String ToggleResult :=
  match envA.getDefaultSource with
  | none => Except.error "Could not get default source"
  | some out =>
    match envA.setSourceMute (trimStr out) with
    | none => Except.error "Could not toggle mute"
    | some _ =>
      match getMuteStatus envB with
      | Except.ok status => Except.ok ⟨true, status.isMuted, trimStr out⟩
      | Except.error e => Except.error e

/-- The emission condition of the monitoring tick:
`!currentInputDevice || name changed || |level delta| > 0.05`. -/
def shouldEmit (cur : Option AudioDeviceState) (info : AudioDeviceState) :
    Bool :=
  match cur with
  | none => true
  | some prev =>
    prev.name != info.name ||
      decide (|prev.level - info.level| > (1 : ℚ) / 20)

/-- One `setInterval` tick of `startMonitoring`, applied to the probed
device info: returns the new `currentInputDevice` and whether a
`deviceUpdate` event was emitted. -/
def monitorTick (cur : Option AudioDeviceState) (info : AudioDeviceState) :
    Option AudioDeviceState × Bool :=
  if shouldEmit cur info then (some info, true) else (cur, false)

/-- Run a sequence of ticks whose probes produced the given device states;
returns the final `currentInputDevice` and the number of `deviceUpdate`
events emitted. -/
def runTicks : Option AudioDeviceState → List AudioDeviceState →
    Option AudioDeviceState × Nat
  | cur, [] => (cur, 0)
  | cur, info :: rest =>
    match monitorTick cur info with
    | (cur2, emitted) =>
      match runTicks cur2 rest with
      | (cur3, n) => (cur3, (if emitted then 1 else 0) + n)

/-- The mutable fields of `AudioMonitor` that `startMonitoring` and
`stopMonitoring` touch. -/
structure MonitorState where
  currentInputDevice : Option AudioDeviceState
  isMonitoring : Bool
  hasTimer : Bool
deriving DecidableEq

/-- Method `AudioMonitor.startMonitoring`: a no-op while already monitoring;
otherwise mark monitoring, install the interval timer, and run the initial
probe — on success it sets `currentInputDevice` and emits, on failure it
only logs.  Returns the new state, whether a timer was installed, and
whether a `deviceUpdate` event was emitted. -/
def startMonitoring (s : MonitorState) (intervalMs : Nat)
    (initialProbe : Except String AudioDeviceState) :
    MonitorState × Bool × Bool :=
  if s.isMonitoring then (s, false, false)
  else
    match initialProbe with
    | Except.ok info => (⟨some info, true, true⟩, true, true)
    | Except.error _ => (⟨s.currentInputDevice, true, true⟩, true, false)

/-- Method `AudioMonitor.stopMonitoring`: clear the timer and the flag. -/
def stopMonitoring (s : MonitorState) : MonitorState :=
  ⟨s.currentInputDevice, false, false⟩

end AudioMonitor

namespace Main

/-- Recording state owned by the main process (`recordingState`). -/
inductive RecState where
  | stopped
  | recording
  | paused
deriving DecidableEq

/-- The three page-script recording calls the main process can make. -/
inductive RecAction where
  | record
  | pause
  | stop
deriving DecidableEq

/-- Outcome of one `webContents.executeJavaScript` recording call:
the page returned `{success:true}` or `{success:false}`, the script
evaluated to a null/undefined result, or the promise rejected. -/
inductive CallOutcome where
  | resolved (success : Bool)
  | resolvedNull
  | rejected
deriving DecidableEq

/-- Target state of each page-script recording call. -/
def targetOf : RecAction → RecState
  | RecAction.record => RecState.recording
  | RecAction.pause => RecState.paused
  | RecAction.stop => RecState.stopped

/-- Shared shape of the `.then/.catch` continuations of `startRecording`,
`pauseRecording` and `stopRecording`: on `result && result.success` assign
the target state and notify; on a falsy or unsuccessful result keep the
state and notify about the failure; on rejection keep the state and only
log (`console.error`), with no notification.  Returns the state after the
call and whether `showNotification` ran. -/
def applyResult (st : RecState) (a : RecAction) (o : CallOutcome) :
    RecState × Bool :=
  match o with
  | CallOutcome.resolved true => (targetOf a, true)
  | CallOutcome.resolved false => (st, true)
  | CallOutcome.resolvedNull => (st, true)
  | CallOutcome.rejected => (st, false)

/-- Function `startRecording` of the main process, guard included:
`if (!mainWindow || recordingState === 'recording') return;`. -/
def startRecording (hasWindow : Bool) (st : RecState) (o : CallOutcome) :
    RecState × Bool :=
  if hasWindow = false ∨ st = RecState.recording then (st, false)
  else applyResult st RecAction.record o

/-- Function `pauseRecording` of the main process, guard included. -/
def pauseRecording (hasWindow : Bool) (st : RecState) (o : CallOutcome) :
    RecState × Bool :=
  if hasWindow = false ∨ st ≠ RecState.recording then (st, false)
  else applyResult st RecAction.pause o

/-- Function `stopRecording` of the main process, guard included. -/
def stopRecording (hasWindow : Bool) (st : RecState) (o : CallOutcome) :
    RecState × Bool :=
  if hasWindow = false ∨ st = RecState.stopped then (st, false)
  else applyResult st RecAction.stop o

/-- What the `toggle-microphone-mute` IPC handler returns to the page:
either the resolved `toggleMute` result, or a `{success:false, error}`
object built from the caught rejection (or from a missing monitor). -/
inductive ToggleReply where
  | ok (r : AudioMonitor.ToggleResult)
  | failed (message : String)
deriving DecidableEq

/-- Handler `ipcMain.handle('toggle-microphone-mute')`: with a monitor
present it forwards `toggleMute`, turning a rejection into
`{success:false, error}`; without one it fails outright. -/
def handleToggleMicrophoneMute (monitorPresent : Bool)
    (envA envB : AudioMonitor.ExecEnv) : ToggleReply :=
  if monitorPresent then
    match AudioMonitor.toggleMute envA envB with
    | Except.ok r => ToggleReply.ok r
    | Except.error e => ToggleReply.failed e
  else ToggleReply.failed "Audio monitor not available"

/-- The three configurable accelerator strings (`recordingShortcuts`). -/
structure Shortcuts where
  record : String
  pause : String
  stop : String
deriving DecidableEq

/-- Built-in defaults of `recordingShortcuts` (on Linux,
`CommandOrControl` renders as `Ctrl`). -/
def defaultShortcuts : Shortcuts :=
  ⟨"CommandOrControl+Alt+R", "CommandOrControl+Alt+P",
    "CommandOrControl+Alt+S"⟩

/-- The optional `shortcuts` object of the configuration file; each key
may be absent. -/
structure PartialShortcuts where
  record : Option String
  pause : Option String
  stop : Option String

/-- Observable states of the `recording-shortcuts.json` file: absent,
unparsable JSON, or parsed with an optional `shortcuts` object. -/
inductive ConfigFile where
  | absent
  | malformed
  | parsed (shortcuts : Option PartialShortcuts)

/-- The object spread `{ ...recordingShortcuts, ...config.shortcuts }`. -/
def mergeShortcuts (base : Shortcuts) (p : PartialShortcuts) : Shortcuts :=
  ⟨p.record.getD base.record, p.pause.getD base.pause, p.stop.getD base.stop⟩

/-- Function `loadShortcutsConfig`: a missing file leaves the defaults, a
parse failure is caught and leaves the defaults, a missing `shortcuts` key
leaves the defaults, and otherwise present keys override the defaults. -/
def loadShortcutsConfig (file : ConfigFile) : Shortcuts :=
  match file with
  | ConfigFile.absent => defaultShortcuts
  | ConfigFile.malformed => defaultShortcuts
  | ConfigFile.parsed none => defaultShortcuts
  | ConfigFile.parsed (some p) => mergeShortcuts defaultShortcuts p

/-- Logical recording command bound to a shortcut. -/
inductive RecCmd where
  | record
  | pause
  | stop
deriving DecidableEq

/-- The recording-related `globalShortcut.register` calls made in
`app.whenReady`, in their registration order: the fixed function keys
F10/F11/F12, then the three configurable accelerators. -/
def registeredRecordingBindings (s : Shortcuts) : List (String × RecCmd) :=
  [("F10", RecCmd.record), ("F11", RecCmd.pause), ("F12", RecCmd.stop),
    (s.record, RecCmd.record), (s.pause, RecCmd.pause),
    (s.stop, RecCmd.stop)]

end Main

namespace Preload

/-- A DOM element as the button heuristics observe it: the set of CSS
selectors it matches (the CSS engine itself is abstracted into this
field — the tag selector `button` included), its `disabled` flag, its
text content, and its optional `aria-label` and `title` attributes. -/
structure Element where
  selectorHits : List String
  disabled : Bool
  textContent : String
  ariaLabel : Option String
  title : Option String
deriving DecidableEq

/-- A page state: the document's elements in document order. -/
structure Page where
  elements : List Element
deriving DecidableEq

/-- JavaScript `document.querySelector(sel)`: the first element in
document order matching the selector. -/
def querySelector (p : Page) (sel : String) : Option Element :=
  p.elements.find? (fun e => e.selectorHits.contains sel)

/-- JavaScript `document.querySelectorAll(sel)`, in document order. -/
def queryAll (p : Page) (sel : String) : List Element :=
  p.elements.filter (fun e => e.selectorHits.contains sel)

/-- Own properties of the `selectors` object literal of
`findButtonByType`: exactly the keys record/pause/stop. -/
def selectorsOwn (buttonType : String) : Option (List String) :=
  if buttonType = "record" then
    some
    ["[data-testid=\"record-button\"]",
      "[data-testid=\"recording-button\"]",
      "[aria-label*=\"record\" i]",
      "[aria-label*=\"start recording\" i]",
      "[title*=\"record\" i]",
      ".record-button",
      "#record-button",
      "button[class*=\"record\" i]",
      "button[id*=\"record\" i]"]
  else if buttonType = "pause" then
    some
    ["[data-testid=\"pause-button\"]",
      "[aria-label*=\"pause\" i]",
      "[title*=\"pause\" i]",
      ".pause-button",
      "#pause-button",
      "button[class*=\"pause\" i]",
      "button[id*=\"pause\" i]"]
  else if buttonType = "stop" then
    some
    ["[data-testid=\"stop-button\"]",
      "[aria-label*=\"stop\" i]",
      "[title*=\"stop\" i]",
      ".stop-button",
      "#stop-button",
      "button[class*=\"stop\" i]",
      "button[id*=\"stop\" i]"]
  else none

/-- Own properties of the `searchTerms` object literal of
`findButtonByType`: exactly the keys record/pause/stop. -/
def searchTermsOwn (buttonType : String) : Option (List String) :=
  if buttonType = "record" then some ["record", "mic", "start"]
  else if buttonType = "pause" then some ["pause"]
  else if buttonType = "stop" then some ["stop", "end", "finish"]
  else none

/-- Member names every object literal inherits from `Object.prototype`.
A property lookup with one of these names yields a truthy
function/object value, so the `|| []` fallback does not trigger and the
subsequent `for...of` over the value throws a TypeError. -/
def objectProtoMembers : List String :=
  ["constructor", "hasOwnProperty", "isPrototypeOf",
    "propertyIsEnumerable", "toLocaleString", "toString", "valueOf",
    "__defineGetter__", "__defineSetter__", "__lookupGetter__",
    "__lookupSetter__", "__proto__"]

/-- Result of the JavaScript lookup `table[buttonType] || []` on one of
the two object literals: either an iterable array (the own property, or
`[]` for a name bound nowhere on the prototype chain), or a truthy
non-iterable member inherited from `Object.prototype`. -/
inductive LookupResult where
  | iterable (l : List String)
  | nonIterable
deriving DecidableEq

/-- The lookup `table[buttonType] || []` including the prototype chain. -/
def tableLookup (own : String → Option (List String))
    (buttonType : String) : LookupResult :=
  match own buttonType with
  | some l => LookupResult.iterable l
  | none =>
    if objectProtoMembers.contains buttonType then LookupResult.nonIterable
    else LookupResult.iterable []

/-- The effective iterable selector list: the own table entry, or `[]`.
This truncates the prototype-chain lookup; it agrees with `tableLookup`
exactly on the non-inherited names (`findButtonByTypeJs_agrees`). -/
def typeSelectors (buttonType : String) : List String :=
  (selectorsOwn buttonType).getD []

/-- The effective iterable keyword list: the own table entry, or `[]`;
truncated like `typeSelectors`. -/
def searchTerms (buttonType : String) : List String :=
  (searchTermsOwn buttonType).getD []

/-- The keyword test of the fallback scan: some term occurs in the
lower-cased text content, `aria-label` or `title` of the button. -/
def keywordHit (terms : List String) (b : Element) : Bool :=
  terms.any (fun term =>
    containsSub (toLowerStr b.textContent) term ||
      containsSub (toLowerStr (b.ariaLabel.getD "")) term ||
      containsSub (toLowerStr (b.title.getD "")) term)

/-- The selector loop of `findButtonByType`: for each selector in order,
`querySelector` it; return the hit when it exists and is not disabled,
otherwise move on to the next selector. -/
def selectorScan (p : Page) : List String → Option Element
  | [] => none
  | sel :: rest =>
    match querySelector p sel with
    | some b => if b.disabled then selectorScan p rest else some b
    | none => selectorScan p rest

/-- The fallback loop of `findButtonByType`: scan every `button` element
in order, skipping disabled ones, for the first keyword hit. -/
def fallbackScan (p : Page) (terms : List String) : Option Element :=
  (queryAll p "button").find? (fun b => !b.disabled && keywordHit terms b)

/-- Function `findButtonByType` of the preload script on the lookups
that yield an iterable (the three known kinds and names absent from the
prototype chain): the selector loop first, then the keyword fallback,
else `null`.  The full behavior, prototype-chain throw included, is
`findButtonByTypeJs`. -/
def findButtonByType (p : Page) (buttonType : String) : Option Element :=
  match selectorScan p (typeSelectors buttonType) with
  | some b => some b
  | none => fallbackScan p (searchTerms buttonType)

/-- Full model of `findButtonByType`: when `selectors[buttonType] || []`
yields a non-iterable inherited member, the `for (const selector of
typeSelectors)` loop throws a TypeError at once; when the later
`searchTerms[buttonType] || []` yields one, the inner `for (const term
of terms)` loop throws only on reaching the first non-disabled button
(the assignment itself does not throw). -/
def findButtonByTypeJs (p : Page) (buttonType : String) :
    Except String (Option Element) :=
  match tableLookup selectorsOwn buttonType with
  | LookupResult.nonIterable =>
    Except.error "TypeError: typeSelectors is not iterable"
  | LookupResult.iterable sels =>
    match selectorScan p sels with
    | some b => Except.ok (some b)
    | none =>
      match tableLookup searchTermsOwn buttonType with
      | LookupResult.nonIterable =>
        match (queryAll p "button").find? (fun b => !b.disabled) with
        | some _ => Except.error "TypeError: terms is not iterable"
        | none => Except.ok none
      | LookupResult.iterable terms => Except.ok (fallbackScan p terms)

end Preload

namespace AudioMonitor

/-- Environment in which every subprocess fails. -/
def envFail : ExecEnv :=
  ⟨none, none, none, fun _ => none, fun _ => none, fun _ => none, none,
    fun _ => none, fun _ => none⟩

/-- Environment whose default source reports a boosted volume of `150%`,
as PulseAudio emits for over-amplified sources. -/
def envOver : ExecEnv :=
  ⟨some "mic", none, some "", fun _ => none,
    fun _ => some "Volume: front-left: 98304 / 150% / -11.00 dB",
    fun _ => none, none, fun _ => none, fun _ => none⟩

/-- Environment where the default-source lookup succeeds but the mute
grep pipeline fails. -/
def envMuteW : ExecEnv :=
  ⟨some "src", none, none, fun _ => none, fun _ => none, fun _ => none,
    none, fun _ => none, fun _ => none⟩

/-- Environment in which the default-source lookup, the mute toggle and
the mute grep all succeed, with the source reported muted. -/
def envOK : ExecEnv :=
  ⟨some "mic", none, none, fun _ => none, fun _ => none, fun _ => none,
    none, fun _ => some "Mute: yes", fun _ => some ""⟩

theorem extractLevel_nonneg (s : String) : 0 ≤ extractLevel s := by
  unfold extractLevel
  split
  · positivity
  · exact le_refl 0

theorem getInputLevelByName_ok (env : ExecEnv) (n : String) :
    ∃ l, getInputLevelByName env n = Except.ok l ∧ 0 ≤ l := by
  unfold getInputLevelByName
  split
  · exact ⟨0, rfl, le_refl 0⟩
  · exact ⟨_, rfl, extractLevel_nonneg _⟩

theorem getInputLevel_ok (env : ExecEnv) (n : String) :
    ∃ l, getInputLevel env n = Except.ok l ∧ 0 ≤ l := by
  unfold getInputLevel
  split
  · exact ⟨0, rfl, le_refl 0⟩
  · exact ⟨_, rfl, extractLevel_nonneg _⟩

theorem getDetailedSourceInfoByName_ok (env : ExecEnv) (n : String) :
    ∃ st, getDetailedSourceInfoByName env n = Except.ok st ∧
      0 ≤ st.level := by
  unfold getDetailedSourceInfoByName
  split
  · exact ⟨_, rfl, le_refl 0⟩
  · obtain ⟨l, hl, hnn⟩ := getInputLevelByName_ok env n
    simp only [hl]
    exact ⟨_, rfl, hnn⟩

theorem getDetailedSourceInfo_ok (env : ExecEnv) (n : String) :
    ∃ st, getDetailedSourceInfo env n = Except.ok st ∧ 0 ≤ st.level := by
  unfold getDetailedSourceInfo
  split
  · exact ⟨_, rfl, le_refl 0⟩
  · obtain ⟨l, hl, hnn⟩ := getInputLevel_ok env n
    simp only [hl]
    exact ⟨_, rfl, hnn⟩

theorem getAlsaInputInfo_ok (env : ExecEnv) :
    ∃ st, getAlsaInputInfo env = Except.ok st ∧ st.level = 0 := by
  unfold getAlsaInputInfo
  split
  · exact ⟨_, rfl, rfl⟩
  · exact ⟨_, rfl, rfl⟩

theorem getFirstAvailableSource_ok (env : ExecEnv) :
    ∃ st, getFirstAvailableSource env = Except.ok st ∧ 0 ≤ st.level := by
  unfold getFirstAvailableSource
  split
  · obtain ⟨st, h, hz⟩ := getAlsaInputInfo_ok env
    exact ⟨st, h, le_of_eq hz.symm⟩
  · split
    · exact ⟨_, rfl, le_refl 0⟩
    · exact getDetailedSourceInfo_ok env _

theorem getInputDeviceInfo_ok (env : ExecEnv) :
    ∃ st, getInputDeviceInfo env = Except.ok st ∧ 0 ≤ st.level := by
  unfold getInputDeviceInfo
  split
  · exact getFirstAvailableSource_ok env
  · exact getDetailedSourceInfoByName_ok env _

end AudioMonitor

/-- C1: on every monitoring tick that has a previously emitted state, a
`deviceUpdate` event is emitted if and only if the probed name differs
from the last emitted name or the absolute level delta exceeds `0.05`;
consequently a run of ticks whose probes all equal the last emitted state
emits nothing and leaves the state unchanged. -/
theorem deviceUpdate_emission_iff (prev info s : AudioDeviceState)
    (probes : List AudioDeviceState) :
    ((AudioMonitor.monitorTick (some prev) info).2 = true ↔
      (prev.name ≠ info.name ∨
        |info.level - prev.level| > (1 : ℚ) / 20)) ∧
    ((∀ p ∈ probes, p = s) →
      AudioMonitor.runTicks (some s) probes = (some s, 0)) := by
  constructor
  · have h : (AudioMonitor.monitorTick (some prev) info).2 =
        AudioMonitor.shouldEmit (some prev) info := by
      unfold AudioMonitor.monitorTick
      split <;> simp_all
    rw [h]
    unfold AudioMonitor.shouldEmit
    simp [bne_iff_ne, abs_sub_comm]
  · intro hall
    induction probes with
    | nil => rfl
    | cons p ps ih =>
      have hp : p = s := hall p (List.mem_cons_self p ps)
      subst hp
      have hrest := ih (fun q hq => hall q (List.mem_cons_of_mem p hq))
      have hno : ¬ ((1 : ℚ) / 20 < |p.level - p.level|) := by
        rw [sub_self, abs_zero]
        norm_num
      have htick : AudioMonitor.monitorTick (some p) p = (some p, false) := by
        unfold AudioMonitor.monitorTick AudioMonitor.shouldEmit
        simp [hno]
      unfold AudioMonitor.runTicks
      simp [htick, hrest]

/-- Witness for C1 at the spec's scenario state `{name:"Mic A",
level:0.30}` probed twice unchanged. -/
theorem deviceUpdate_emission_iff_witness :
    AudioMonitor.runTicks (some ⟨"Mic A", (3 : ℚ) / 10⟩)
        [⟨"Mic A", (3 : ℚ) / 10⟩, ⟨"Mic A", (3 : ℚ) / 10⟩] =
      (some ⟨"Mic A", (3 : ℚ) / 10⟩, 0) :=
  (deviceUpdate_emission_iff ⟨"Mic A", (3 : ℚ) / 10⟩
      ⟨"Mic A", (3 : ℚ) / 10⟩ ⟨"Mic A", (3 : ℚ) / 10⟩
      [⟨"Mic A", (3 : ℚ) / 10⟩, ⟨"Mic A", (3 : ℚ) / 10⟩]).2 (by simp)

/-- Spec scenario: probing `{name:"Mic A", level:0.33}` after an emitted
`{name:"Mic A", level:0.30}` emits nothing (delta `0.03 ≤ 0.05`). -/
theorem scenario_small_delta :
    AudioMonitor.monitorTick (some ⟨"Mic A", (30 : ℚ) / 100⟩)
        ⟨"Mic A", (33 : ℚ) / 100⟩ =
      (some ⟨"Mic A", (30 : ℚ) / 100⟩, false) := by
  have hno : ¬ ((1 : ℚ) / 20 < |(30 : ℚ) / 100 - (33 : ℚ) / 100|) := by
    rw [show ((30 : ℚ) / 100 - (33 : ℚ) / 100) = -(3 / 100) by norm_num,
      abs_neg, abs_of_nonneg (by norm_num : (0 : ℚ) ≤ 3 / 100)]
    norm_num
  have hd := decide_eq_false hno
  unfold AudioMonitor.monitorTick AudioMonitor.shouldEmit
  dsimp only
  rw [hd]
  simp

/-- Spec scenario: probing `{name:"Mic A", level:0.40}` after an emitted
`{name:"Mic A", level:0.30}` emits one change event with the new state. -/
theorem scenario_large_delta :
    AudioMonitor.monitorTick (some ⟨"Mic A", (30 : ℚ) / 100⟩)
        ⟨"Mic A", (40 : ℚ) / 100⟩ =
      (some ⟨"Mic A", (40 : ℚ) / 100⟩, true) := by
  have hyes : ((1 : ℚ) / 20 < |(30 : ℚ) / 100 - (40 : ℚ) / 100|) := by
    rw [show ((30 : ℚ) / 100 - (40 : ℚ) / 100) = -(10 / 100) by norm_num,
      abs_neg, abs_of_nonneg (by norm_num : (0 : ℚ) ≤ 10 / 100)]
    norm_num
  have hd := decide_eq_true hyes
  unfold AudioMonitor.monitorTick AudioMonitor.shouldEmit
  dsimp only
  rw [hd]
  simp

/-- C4: the probe chain `getInputDeviceInfo` (the body of
`getCurrentDevice`) never rejects, and when the default-source query, the
source listing and the ALSA enumeration all fail it resolves the
placeholder `{name:"System Audio Input", level:0}`. -/
theorem getCurrentDevice_failsafe (env : AudioMonitor.ExecEnv) :
    (∃ st, AudioMonitor.getInputDeviceInfo env = Except.ok st) ∧
    (env.getDefaultSource = none → env.listShortSources = none →
      env.arecord = none →
      AudioMonitor.getInputDeviceInfo env =
        Except.ok ⟨"System Audio Input", 0⟩) := by
  constructor
  · obtain ⟨st, h, _⟩ := AudioMonitor.getInputDeviceInfo_ok env
    exact ⟨st, h⟩
  · intro h1 h2 h3
    unfold AudioMonitor.getInputDeviceInfo AudioMonitor.getFirstAvailableSource
      AudioMonitor.getAlsaInputInfo
    rw [h1, h2, h3]

/-- Witness for C4: the all-failure environment resolves the placeholder. -/
theorem getCurrentDevice_failsafe_witness :
    AudioMonitor.getInputDeviceInfo AudioMonitor.envFail =
      Except.ok ⟨"System Audio Input", 0⟩ :=
  (getCurrentDevice_failsafe AudioMonitor.envFail).2 rfl rfl rfl

/-- C2 counterexample: the level extraction does not clamp — a PulseAudio
volume report of `150%` makes `getInputLevelByName` resolve the level
`150/100 = 1.5`, outside `[0,1]`. -/
theorem probed_level_range_cex :
    AudioMonitor.getInputLevelByName AudioMonitor.envOver "mic" =
      Except.ok ((150 : ℚ) / 100) ∧ ¬ ((150 : ℚ) / 100 ≤ 1) := by
  constructor
  · have hfp : findPercent
        ("Volume: front-left: 98304 / 150% / -11.00 dB").data =
          some ['1', '5', '0'] := by decide
    have hd : digitsToNat ['1', '5', '0'] = 150 := by decide
    have hx : AudioMonitor.extractLevel
        "Volume: front-left: 98304 / 150% / -11.00 dB" =
          (150 : ℚ) / 100 := by
      unfold AudioMonitor.extractLevel
      simp only [hfp]
      rw [hd]
      norm_num
    calc AudioMonitor.getInputLevelByName AudioMonitor.envOver "mic"
        = Except.ok (AudioMonitor.extractLevel
            "Volume: front-left: 98304 / 150% / -11.00 dB") := rfl
      _ = Except.ok ((150 : ℚ) / 100) := by rw [hx]
  · norm_num

/-- C2 (amended): every level the probe operations resolve is
nonnegative (`getAlsaInputInfo` always reports `0`); output without a
percentage match yields level `0`; and the level stays within `[0,1]`
exactly when the matched percentage is at most `100` — the code never
clamps, so percentages above `100` produce levels above `1`. -/
theorem probed_levels_nonneg (env : AudioMonitor.ExecEnv) :
    (∀ st, AudioMonitor.getInputDeviceInfo env = Except.ok st →
      0 ≤ st.level) ∧
    (∀ n st, AudioMonitor.getDetailedSourceInfoByName env n =
      Except.ok st → 0 ≤ st.level) ∧
    (∀ st, AudioMonitor.getFirstAvailableSource env = Except.ok st →
      0 ≤ st.level) ∧
    (∀ st, AudioMonitor.getAlsaInputInfo env = Except.ok st →
      st.level = 0) ∧
    (∀ n l, AudioMonitor.getInputLevelByName env n = Except.ok l →
      0 ≤ l) ∧
    (∀ s, findPercent s.data = none → AudioMonitor.extractLevel s = 0) ∧
    (∀ s ds, findPercent s.data = some ds → digitsToNat ds ≤ 100 →
      AudioMonitor.extractLevel s ≤ 1) := by
  refine ⟨?_, ?_, ?_, ?_, ?_, ?_, ?_⟩
  · intro st h
    obtain ⟨st2, h2, hn⟩ := AudioMonitor.getInputDeviceInfo_ok env
    rw [h2] at h
    injection h with he
    subst he
    exact hn
  · intro n st h
    obtain ⟨st2, h2, hn⟩ := AudioMonitor.getDetailedSourceInfoByName_ok env n
    rw [h2] at h
    injection h with he
    subst he
    exact hn
  · intro st h
    obtain ⟨st2, h2, hn⟩ := AudioMonitor.getFirstAvailableSource_ok env
    rw [h2] at h
    injection h with he
    subst he
    exact hn
  · intro st h
    obtain ⟨st2, h2, hz⟩ := AudioMonitor.getAlsaInputInfo_ok env
    rw [h2] at h
    injection h with he
    subst he
    exact hz
  · intro n l h
    obtain ⟨l2, h2, hn⟩ := AudioMonitor.getInputLevelByName_ok env n
    rw [h2] at h
    injection h with he
    subst he
    exact hn
  · intro s h
    unfold AudioMonitor.extractLevel
    rw [h]
  · intro s ds h hle
    unfold AudioMonitor.extractLevel
    rw [h]
    rw [div_le_one (by norm_num : (0 : ℚ) < 100)]
    exact_mod_cast hle

/-- Witness for C2 (amended): malformed output yields level `0`, and the
all-failure probe resolves a state whose level is nonnegative. -/
theorem probed_levels_nonneg_witness :
    AudioMonitor.extractLevel "Volume: muted" = 0 ∧
      (0 : ℚ) ≤ (AudioDeviceState.mk "System Audio Input" 0).level :=
  ⟨(probed_levels_nonneg AudioMonitor.envFail).2.2.2.2.2.1
      "Volume: muted" (by decide),
    (probed_levels_nonneg AudioMonitor.envFail).1
      ⟨"System Audio Input", 0⟩ rfl⟩

/-- C3 counterexample: when the `pactl get-default-source` subprocess
fails, `getMuteStatus` rejects instead of resolving `isMuted:false`. -/
theorem getMuteStatus_rejects_cex :
    AudioMonitor.getMuteStatus AudioMonitor.envFail =
      Except.error "Could not get default source" := rfl

/-- C3 (amended): after a successful default-source lookup, a failed mute
grep resolves `isMuted:false`, and grep output without `Mute: yes`
resolves `isMuted:false`; but a failed default-source lookup itself
rejects with an error rather than resolving `isMuted:false`. -/
theorem getMuteStatus_amended (env : AudioMonitor.ExecEnv) :
    (∀ s, env.getDefaultSource = some s →
      env.mutePipeByName (trimStr s) = none →
      AudioMonitor.getMuteStatus env = Except.ok ⟨false, trimStr s⟩) ∧
    (∀ s out, env.getDefaultSource = some s →
      env.mutePipeByName (trimStr s) = some out →
      containsSub out "Mute: yes" = false →
      AudioMonitor.getMuteStatus env = Except.ok ⟨false, trimStr s⟩) ∧
    (env.getDefaultSource = none →
      AudioMonitor.getMuteStatus env =
        Except.error "Could not get default source") := by
  refine ⟨?_, ?_, ?_⟩
  · intro s h1 h2
    unfold AudioMonitor.getMuteStatus
    rw [h1]
    simp only [h2]
  · intro s out h1 h2 h3
    unfold AudioMonitor.getMuteStatus
    rw [h1]
    simp only [h2, h3]
  · intro h1
    unfold AudioMonitor.getMuteStatus
    rw [h1]

/-- Witness for C3 (amended): successful lookup plus failed grep resolves
`isMuted:false` with the looked-up source name. -/
theorem getMuteStatus_amended_witness :
    AudioMonitor.getMuteStatus AudioMonitor.envMuteW =
      Except.ok ⟨false, trimStr "src"⟩ :=
  (getMuteStatus_amended AudioMonitor.envMuteW).1 "src" rfl rfl

/-- C5 counterexample: a rejected page-script call (for example a script
evaluation error) leaves the state unchanged but raises no notification —
`recordingState` stays `stopped` and `showNotification` does not run,
contradicting the claim's "a user-visible notification is raised" for the
error case. -/
theorem recording_error_no_notification_cex :
    Main.applyResult Main.RecState.stopped Main.RecAction.record
        Main.CallOutcome.rejected =
      (Main.RecState.stopped, false) := rfl

/-- C5 (amended): on `{success:true}` the state transitions to the target
state and a notification is raised; on `{success:false}` or a null result
the state is unchanged and a notification is raised; on a rejected call
the state is unchanged but only a console log occurs, with no
notification. -/
theorem recording_state_machine_amended (st : Main.RecState)
    (a : Main.RecAction) (o : Main.CallOutcome) :
    (o = Main.CallOutcome.resolved true →
      Main.applyResult st a o = (Main.targetOf a, true)) ∧
    (o = Main.CallOutcome.resolved false ∨
        o = Main.CallOutcome.resolvedNull →
      Main.applyResult st a o = (st, true)) ∧
    (o = Main.CallOutcome.rejected →
      Main.applyResult st a o = (st, false)) := by
  refine ⟨?_, ?_, ?_⟩
  · rintro rfl
    rfl
  · rintro (rfl | rfl) <;> rfl
  · rintro rfl
    rfl

/-- Witness for C5 (amended): a successful record call transitions
`stopped` to `recording` with a notification. -/
theorem recording_state_machine_amended_witness :
    Main.applyResult Main.RecState.stopped Main.RecAction.record
        (Main.CallOutcome.resolved true) =
      (Main.targetOf Main.RecAction.record, true) :=
  (recording_state_machine_amended Main.RecState.stopped
      Main.RecAction.record (Main.CallOutcome.resolved true)).1 rfl

/-- C7: calling `startMonitoring` while already monitoring is a no-op for
any interval and any probe outcome: the state is returned unchanged, no
timer is installed and no event is emitted. -/
theorem startMonitoring_idempotent (s : AudioMonitor.MonitorState)
    (intervalMs : Nat) (probe : Except String AudioDeviceState)
    (h : s.isMonitoring = true) :
    AudioMonitor.startMonitoring s intervalMs probe = (s, false, false) := by
  unfold AudioMonitor.startMonitoring
  simp [h]

/-- Witness for C7: an already-monitoring state is left untouched. -/
theorem startMonitoring_idempotent_witness :
    AudioMonitor.startMonitoring ⟨some ⟨"Mic A", 1⟩, true, true⟩ 2000
        (Except.ok ⟨"Other", 0⟩) =
      (⟨some ⟨"Mic A", 1⟩, true, true⟩, false, false) :=
  startMonitoring_idempotent ⟨some ⟨"Mic A", 1⟩, true, true⟩ 2000
    (Except.ok ⟨"Other", 0⟩) rfl

/-- C8: with the configuration file absent, the registered recording
bindings are exactly the built-in defaults — F10/F11/F12 plus the
configurable `CommandOrControl+Alt+R/P/S` (rendered `Ctrl+Alt+R/P/S` on
Linux), bound to record/pause/stop respectively. -/
theorem shortcuts_default_when_absent :
    Main.registeredRecordingBindings
        (Main.loadShortcutsConfig Main.ConfigFile.absent) =
      [("F10", Main.RecCmd.record), ("F11", Main.RecCmd.pause),
        ("F12", Main.RecCmd.stop),
        ("CommandOrControl+Alt+R", Main.RecCmd.record),
        ("CommandOrControl+Alt+P", Main.RecCmd.pause),
        ("CommandOrControl+Alt+S", Main.RecCmd.stop)] := rfl

/-- C9: `toggleMute` resolves only with `success:true` (carrying the
looked-up default source name) or rejects; the `{success:false, error}`
shape the page observes exists exactly when the IPC handler (with the
monitor present) catches such a rejection. -/
theorem toggleMute_never_soft_fails (envA envB : AudioMonitor.ExecEnv) :
    (∀ r, AudioMonitor.toggleMute envA envB = Except.ok r →
      r.success = true ∧
        ∃ s, envA.getDefaultSource = some s ∧ r.sourceName = trimStr s) ∧
    (∀ e, Main.handleToggleMicrophoneMute true envA envB =
        Main.ToggleReply.failed e ↔
      AudioMonitor.toggleMute envA envB = Except.error e) := by
  constructor
  · intro r h
    unfold AudioMonitor.toggleMute at h
    rcases hA : envA.getDefaultSource with _ | s
    · rw [hA] at h
      simp at h
    · rw [hA] at h
      replace h : (match envA.setSourceMute (trimStr s) with
        | none =>
          (Except.error "Could not toggle mute" :
            Except String AudioMonitor.ToggleResult)
        | some _ =>
          match AudioMonitor.getMuteStatus envB with
          | Except.ok status => Except.ok ⟨true, status.isMuted, trimStr s⟩
          | Except.error e => Except.error e) = Except.ok r := h
      rcases hB : envA.setSourceMute (trimStr s) with _ | u
      · rw [hB] at h
        simp at h
      · rw [hB] at h
        replace h : (match AudioMonitor.getMuteStatus envB with
          | Except.ok status =>
            (Except.ok ⟨true, status.isMuted, trimStr s⟩ :
              Except String AudioMonitor.ToggleResult)
          | Except.error e => Except.error e) = Except.ok r := h
        rcases hC : AudioMonitor.getMuteStatus envB with e0 | status
        · rw [hC] at h
          simp at h
        · rw [hC] at h
          simp only [Except.ok.injEq] at h
          subst h
          exact ⟨rfl, s, rfl, rfl⟩
  · intro e
    cases hT : AudioMonitor.toggleMute envA envB with
    | ok r => simp [Main.handleToggleMicrophoneMute, hT]
    | error e0 => simp [Main.handleToggleMicrophoneMute, hT]

/-- Witness for C9: in an environment where lookup, toggle and mute query
all succeed, `toggleMute` resolves `success:true` with the looked-up
source name. -/
theorem toggleMute_never_soft_fails_witness :
    (AudioMonitor.ToggleResult.mk true true "mic").success = true ∧
      ∃ s, AudioMonitor.envOK.getDefaultSource = some s ∧
        (AudioMonitor.ToggleResult.mk true true "mic").sourceName =
          trimStr s :=
  (toggleMute_never_soft_fails AudioMonitor.envOK AudioMonitor.envOK).1
    ⟨true, true, "mic"⟩ rfl

namespace Preload

/-- Page with a single enabled plain button whose text matches no
recording keyword. -/
def pageW : Page := ⟨[⟨["button"], false, "hello", none, none⟩]⟩

/-- Page with a single enabled record button. -/
def pageW2 : Page :=
  ⟨[⟨[".record-button", "button"], false, "record", none, none⟩]⟩

theorem selectorScan_eq_none (p : Page) (sels : List String)
    (h : ∀ e ∈ p.elements, ∀ sel ∈ sels,
      e.selectorHits.contains sel = false) :
    selectorScan p sels = none := by
  induction sels with
  | nil => rfl
  | cons sel rest ih =>
    have hq : querySelector p sel = none := by
      unfold querySelector
      refine List.find?_eq_none.mpr ?_
      intro e he
      simpa using h e he sel (List.mem_cons_self sel rest)
    unfold selectorScan
    rw [hq]
    exact ih (fun e he sel2 hs2 => h e he sel2 (List.mem_cons_of_mem sel hs2))

theorem selectorScan_not_disabled (p : Page) (sels : List String)
    (b : Element) (h : selectorScan p sels = some b) :
    b.disabled = false := by
  induction sels with
  | nil => exact absurd h (by simp [selectorScan])
  | cons sel rest ih =>
    unfold selectorScan at h
    cases hq : querySelector p sel with
    | none =>
      rw [hq] at h
      exact ih h
    | some b0 =>
      rw [hq] at h
      replace h : (if b0.disabled = true then selectorScan p rest
        else some b0) = some b := h
      by_cases hd : b0.disabled = true
      · rw [if_pos hd] at h
        exact ih h
      · rw [if_neg hd] at h
        injection h with he
        subst he
        simpa using hd

theorem tableLookup_selectors (bt : String)
    (h : objectProtoMembers.contains bt = false) :
    tableLookup selectorsOwn bt =
      LookupResult.iterable (typeSelectors bt) := by
  have h2 : bt ∉ objectProtoMembers := by simpa using h
  unfold tableLookup typeSelectors
  cases ho : selectorsOwn bt with
  | some l => simp [ho]
  | none => simp [ho, h2]

theorem tableLookup_terms (bt : String)
    (h : objectProtoMembers.contains bt = false) :
    tableLookup searchTermsOwn bt =
      LookupResult.iterable (searchTerms bt) := by
  have h2 : bt ∉ objectProtoMembers := by simpa using h
  unfold tableLookup searchTerms
  cases ho : searchTermsOwn bt with
  | some l => simp [ho]
  | none => simp [ho, h2]

theorem findButtonByTypeJs_agrees (p : Page) (bt : String)
    (h : objectProtoMembers.contains bt = false) :
    findButtonByTypeJs p bt = Except.ok (findButtonByType p bt) := by
  unfold findButtonByTypeJs findButtonByType
  rw [tableLookup_selectors bt h, tableLookup_terms bt h]
  cases hsc : selectorScan p (typeSelectors bt) <;> simp [hsc]

end Preload

/-- C6: `findButtonByType` returns `null` whenever no element matches any
selector of the kind and no enabled button carries any of the kind's
keywords in its lower-cased text, `aria-label` or `title`; and whenever
it returns an element, that element is not disabled. -/
theorem findButtonByType_sound (p : Preload.Page) (bt : String) :
    ((∀ e ∈ p.elements, ∀ sel ∈ Preload.typeSelectors bt,
        e.selectorHits.contains sel = false) →
      (∀ b ∈ Preload.queryAll p "button", b.disabled = false →
        Preload.keywordHit (Preload.searchTerms bt) b = false) →
      Preload.findButtonByType p bt = none) ∧
    (∀ e, Preload.findButtonByType p bt = some e →
      e.disabled = false) := by
  constructor
  · intro h1 h2
    have hs : Preload.selectorScan p (Preload.typeSelectors bt) = none :=
      Preload.selectorScan_eq_none p _ h1
    have hf : Preload.fallbackScan p (Preload.searchTerms bt) = none := by
      unfold Preload.fallbackScan
      refine List.find?_eq_none.mpr ?_
      intro b hb
      by_cases hd : b.disabled = true
      · simp [hd]
      · have hd2 : b.disabled = false := by simpa using hd
        simp [hd2, h2 b hb hd2]
    unfold Preload.findButtonByType
    rw [hs]
    exact hf
  · intro e he
    unfold Preload.findButtonByType at he
    cases hs : Preload.selectorScan p (Preload.typeSelectors bt) with
    | some b =>
      rw [hs] at he
      injection he with he2
      subst he2
      exact Preload.selectorScan_not_disabled p _ b hs
    | none =>
      rw [hs] at he
      have he2 : (Preload.queryAll p "button").find?
          (fun b => !b.disabled &&
            Preload.keywordHit (Preload.searchTerms bt) b) = some e := he
      have hp := List.find?_some he2
      simp only [Bool.and_eq_true] at hp
      simpa using hp.1

/-- Witness for C6: a page holding only an enabled unrelated button yields
`null` for the record kind. -/
theorem findButtonByType_sound_witness :
    Preload.findButtonByType Preload.pageW "record" = none :=
  (findButtonByType_sound Preload.pageW "record").1 (by decide) (by decide)

/-- C10 counterexample: `toString` is a button kind outside
record/pause/stop for which `findButtonByType` does not return `null`
on any page: the lookup `selectors['toString']` yields the inherited
truthy `Object.prototype.toString`, the `|| []` fallback does not
trigger, and the selector `for...of` throws a TypeError. -/
theorem findButtonByType_unknown_kind_cex :
    ("toString" ≠ "record" ∧ "toString" ≠ "pause" ∧
        "toString" ≠ "stop") ∧
      Preload.findButtonByTypeJs Preload.pageW2 "toString" =
        Except.error "TypeError: typeSelectors is not iterable" :=
  ⟨⟨by decide, by decide, by decide⟩, rfl⟩

/-- C10 (amended): for a button kind outside record/pause/stop that is
not an inherited `Object.prototype` member name, both lookups fall back
to `[]` and `findButtonByType` returns `null` on every page state; for
an inherited member name the selector lookup yields a truthy
non-iterable value and the function throws a TypeError instead of
returning `null`, again on every page state. -/
theorem findButtonByType_unknown_kind_amended (p : Preload.Page)
    (bt : String) (h1 : bt ≠ "record") (h2 : bt ≠ "pause")
    (h3 : bt ≠ "stop") :
    (Preload.objectProtoMembers.contains bt = false →
      Preload.findButtonByTypeJs p bt = Except.ok none) ∧
    (Preload.objectProtoMembers.contains bt = true →
      Preload.findButtonByTypeJs p bt =
        Except.error "TypeError: typeSelectors is not iterable") := by
  have hown : Preload.selectorsOwn bt = none := by
    unfold Preload.selectorsOwn
    rw [if_neg h1, if_neg h2, if_neg h3]
  have hown2 : Preload.searchTermsOwn bt = none := by
    unfold Preload.searchTermsOwn
    rw [if_neg h1, if_neg h2, if_neg h3]
  constructor
  · intro hm
    have hm2 : bt ∉ Preload.objectProtoMembers := by simpa using hm
    have hsel : Preload.tableLookup Preload.selectorsOwn bt =
        Preload.LookupResult.iterable [] := by
      simp [Preload.tableLookup, hown, hm2]
    have hterm : Preload.tableLookup Preload.searchTermsOwn bt =
        Preload.LookupResult.iterable [] := by
      simp [Preload.tableLookup, hown2, hm2]
    have hf : Preload.fallbackScan p [] = none := by
      unfold Preload.fallbackScan
      refine List.find?_eq_none.mpr ?_
      intro b hb
      simp [Preload.keywordHit]
    unfold Preload.findButtonByTypeJs
    rw [hsel, hterm]
    simp [Preload.selectorScan, hf]
  · intro hm
    have hm2 : bt ∈ Preload.objectProtoMembers := by simpa using hm
    have hsel : Preload.tableLookup Preload.selectorsOwn bt =
        Preload.LookupResult.nonIterable := by
      simp [Preload.tableLookup, hown, hm2]
    unfold Preload.findButtonByTypeJs
    rw [hsel]

/-- Witness for C10 (amended): the plain unknown kind `toggle` (absent
from the prototype chain) yields `null` even on a page holding an
enabled record button. -/
theorem findButtonByType_unknown_kind_amended_witness :
    Preload.findButtonByTypeJs Preload.pageW2 "toggle" =
      Except.ok none :=
  (findButtonByType_unknown_kind_amended Preload.pageW2 "toggle"
      (by decide) (by decide) (by decide)).1 (by decide)

end VoiceNotes
